import Mathlib

/-!
Verification of the HuntStand exporter core
(src/src/huntstand_exporter/exporter.py) against its specification.

The Python functions are shallowly embedded: JSON values become an
inductive type, dicts become association lists, HTTP transports become
functions from URL strings to results, and Python runtime type errors
(calling a string method on a non-string) are modelled by Option, with
none standing for an uncaught exception.
-/

/-! ## Python string semantics helpers -/

/-- ASCII whitespace stripped by the Python str.strip method with no
arguments.  The exporter only ever strips ASCII fields. -/
def pyIsSpace (c : Char) : Bool :=
  c == ' ' || c == '\t' || c == '\n' || c == '\r' || c == '\x0b' || c == '\x0c'

/-- Drop matching characters from both ends of a character list
(the semantics of the Python str.strip family). -/
def stripBy (p : Char → Bool) (l : List Char) : List Char :=
  ((l.dropWhile p).reverse.dropWhile p).reverse

/-- Python str.strip with no arguments. -/
def pyStrip (s : String) : String :=
  ⟨stripBy pyIsSpace s.data⟩

/-- Python str.strip with a dash argument, as in the asset name synthesis. -/
def pyStripDash (s : String) : String :=
  ⟨stripBy (fun c => c == '-') s.data⟩

/-- Python str.lower (ASCII fields only in this program). -/
def pyLower (s : String) : String :=
  ⟨s.data.map Char.toLower⟩

/-- Python str.capitalize: first character upper-cased, the rest lower-cased. -/
def pyCapitalize (s : String) : String :=
  match s.data with
  | [] => ""
  | c :: rest => ⟨c.toUpper :: rest.map Char.toLower⟩

/-- Helper for pyTitle: upper-case each alphabetic character that does not
follow an alphabetic character, lower-case the others. -/
def pyTitleGo : Bool → List Char → List Char
  | _, [] => []
  | prevAlpha, c :: rest =>
    (if c.isAlpha then (if prevAlpha then c.toLower else c.toUpper) else c)
      :: pyTitleGo c.isAlpha rest

/-- Python str.title (ASCII). -/
def pyTitle (s : String) : String :=
  ⟨pyTitleGo false s.data⟩

/-- Python string slicing s[:n]. -/
def pyTake (n : Nat) (s : String) : String :=
  ⟨s.data.take n⟩

/-! ## The JSON value model -/

/-- Values that flow through the exporter: parsed JSON payloads and the
Python literals the exporter builds from them.  Python None is null,
dicts are association lists with distinct keys. -/
inductive Json where
  | null
  | bool (b : Bool)
  | num (n : Int)
  | str (s : String)
  | arr (l : List Json)
  | obj (kvs : List (String × Json))

/-- Python truthiness of a value. -/
def pyTruthy : Json → Bool
  | .null => false
  | .bool b => b
  | .num n => !(n == 0)
  | .str s => !(s == "")
  | .arr l => !l.isEmpty
  | .obj kvs => !kvs.isEmpty

/-- Python x or y: the first operand when truthy, else the second. -/
def pyOr (a b : Json) : Json :=
  if pyTruthy a then a else b

/-- Dictionary lookup (Python dict keys are unique, so the first match
is the only match). -/
def jGet (kvs : List (String × Json)) (k : String) : Option Json :=
  (kvs.find? (fun p => p.1 == k)).map (fun p => p.2)

/-- Python d.get(k, default). -/
def jGetD (kvs : List (String × Json)) (k : String) (d : Json) : Json :=
  (jGet kvs k).getD d

/-- Python d.get(k) with its implicit None default. -/
def jGetN (kvs : List (String × Json)) (k : String) : Json :=
  jGetD kvs k .null

/-- Python list(d.values()). -/
def jValues (kvs : List (String × Json)) : List Json :=
  kvs.map (fun p => p.2)

/-- Python str() of a value.  The reprs of list and dict containers are
abbreviated; no theorem in this file depends on them. -/
def pyStr : Json → String
  | .null => "None"
  | .bool true => "True"
  | .bool false => "False"
  | .num n => toString n
  | .str s => s
  | .arr _ => "[...]"
  | .obj _ => "\x7b...\x7d"

/-- Calling a str method on a value raises TypeError in Python unless the
value is a string; none models that exception. -/
def pyStrAttr : Json → Option String
  | .str s => some s
  | _ => none

/-! ## exporter.py small helpers -/

/-- as_dict: return the dict itself, else an empty dict. -/
def as_dict : Json → List (String × Json)
  | .obj kvs => kvs
  | _ => []

/-- The character class accepted by is_safe_id. -/
def hexDashChars : List Char :=
  "0123456789abcdefABCDEF-".data

/-- is_safe_id: None is rejected; ints are accepted (Python bool is a
subtype of int, so bools are accepted by the isinstance int branch);
strings are stripped and accepted when non-empty and composed only of
hex digits and dashes; every other type is rejected. -/
def is_safe_id : Json → Bool
  | .null => false
  | .bool _ => true
  | .num _ => true
  | .str s =>
    let t := pyStrip s
    !(t == "") && t.data.all (fun c => hexDashChars.contains c)
  | .arr _ => false
  | .obj _ => false

/-- json_or_list_to_objects: a list is returned as is; a dict with an
objects list returns that list; any other dict returns its values;
None and every other value yield the empty list. -/
def json_or_list_to_objects : Json → List Json
  | .null => []
  | .arr l => l
  | .obj kvs =>
    match jGet kvs "objects" with
    | some (.arr l) => l
    | _ => jValues kvs
  | _ => []

/-! ## URLs and transports -/

def BASE_URL : String := "https://app.huntstand.com"

def MYPROFILE_URL : String := BASE_URL ++ "/api/v1/myprofile/"

def INVITE_URL : String := BASE_URL ++ "/api/v1/membershipemailinvite/?huntarea=\x7b\x7d"

def MEMBERS_URL : String := BASE_URL ++ "/api/v1/clubmember/?huntarea_id=\x7b\x7d"

def REQS_URL : String := BASE_URL ++ "/api/v1/membershiprequest/?huntarea=\x7b\x7d"

def HUNTAREA_BY_PROFILE : String := BASE_URL ++ "/api/v1/huntarea/?profile_id=\x7b\x7d"

/-- Substitute the first brace-pair placeholder of a template by the str()
of the argument: the semantics of template.format(arg) for the
single-placeholder templates of the exporter. -/
def fmtChars : List Char → String → List Char
  | '\x7b' :: '\x7d' :: rest, s => s.data ++ rest
  | c :: rest, s => c :: fmtChars rest s
  | [], _ => []

def fmt (tmpl : String) (v : Json) : String :=
  ⟨fmtChars tmpl.data (pyStr v)⟩

/-- An HTTP response: status code and parsed JSON body. -/
structure HttpResp where
  status : Nat
  body : Json

/-- A transport maps a URL to a response, or to a RequestException
(which also covers JSON decode failures raised while reading the body). -/
def HttpTransport : Type :=
  String → Except Unit HttpResp

/-- get_json: GET the URL, raise_for_status, parse JSON; any
RequestException yields None.  raise_for_status raises for status
codes of 400 and above. -/
def get_json (t : HttpTransport) (url : String) : Option Json :=
  match t url with
  | .error _ => none
  | .ok r => if 400 ≤ r.status then none else some r.body

/-! ## Per-area fetchers.

Each fetcher also returns the list of URLs it requested, so that
refusal to issue a network call is visible in the model. -/

/-- fetch_members_for_area: refuse unsafe ids, else one GET returning
the parsed JSON or None. -/
def fetch_members_for_area (t : HttpTransport) (hunt_id : Json) :
    Option Json × List String :=
  if !is_safe_id hunt_id then (none, [])
  else
    let url := fmt MEMBERS_URL hunt_id
    (get_json t url, [url])

/-- fetch_invites_for_area: refuse unsafe ids, else one GET whose body
is normalized by json_or_list_to_objects; errors yield the empty list. -/
def fetch_invites_for_area (t : HttpTransport) (hunt_id : Json) :
    List Json × List String :=
  if !is_safe_id hunt_id then ([], [])
  else
    let url := fmt INVITE_URL hunt_id
    match get_json t url with
    | none => ([], [url])
    | some body => (json_or_list_to_objects body, [url])

/-- fetch_requests_for_area: same shape as the invites fetcher. -/
def fetch_requests_for_area (t : HttpTransport) (hunt_id : Json) :
    List Json × List String :=
  if !is_safe_id hunt_id then ([], [])
  else
    let url := fmt REQS_URL hunt_id
    match get_json t url with
    | none => ([], [url])
    | some body => (json_or_list_to_objects body, [url])

/-! ## Assets -/

/-- The built-in candidate asset endpoints of the exporter
(asset type tag, URL template). -/
def ASSET_ENDPOINT_CANDIDATES : List (String × String) :=
  [("stand", BASE_URL ++ "/api/v1/stand/?huntarea_id=\x7b\x7d"),
   ("camera", BASE_URL ++ "/api/v1/camera/?huntarea_id=\x7b\x7d"),
   ("trailcam", BASE_URL ++ "/api/v1/trailcam/?huntarea=\x7b\x7d"),
   ("blind", BASE_URL ++ "/api/v1/blind/?huntarea_id=\x7b\x7d"),
   ("feeder", BASE_URL ++ "/api/v1/feeder/?huntarea_id=\x7b\x7d"),
   ("foodplot", BASE_URL ++ "/api/v1/foodplot/?huntarea_id=\x7b\x7d"),
   ("waypoint", BASE_URL ++ "/api/v1/waypoint/?huntarea_id=\x7b\x7d"),
   ("trail", BASE_URL ++ "/api/v1/scouttrail/?huntarea_id=\x7b\x7d"),
   ("asset", BASE_URL ++ "/api/v1/asset/?huntarea_id=\x7b\x7d")]

/-- A normalized asset row as built by _normalize_asset. -/
structure AssetRow where
  huntarea_id : Json
  huntarea_name : Json
  asset_type : String
  asset_id : Json
  name : String
  subtype : String
  latitude : String
  longitude : String
  created : String
  updated : String
  last_activity : String
  owner_email : String
  visibility : String

/-- _extract_lat_lon: direct lat and lon fields, with a fallback into a
nested location dict when either is missing or falsy. -/
def extract_lat_lon (obj : List (String × Json)) : String × String :=
  let lat := pyOr (jGetN obj "lat") (jGetN obj "latitude")
  let lon := pyOr (jGetN obj "lon") (jGetN obj "longitude")
  let latlon :=
    if !pyTruthy lat || !pyTruthy lon then
      match jGetN obj "location" with
      | .obj loc =>
        (pyOr lat (pyOr (jGetN loc "lat") (jGetN loc "latitude")),
         pyOr lon (pyOr (jGetN loc "lon") (jGetN loc "longitude")))
      | _ => (lat, lon)
    else (lat, lon)
  (pyStr (pyOr latlon.1 (.str "")), pyStr (pyOr latlon.2 (.str "")))

/-- Owner email heuristics of _normalize_asset: the first of the owner,
user and profile keys whose value is a dict holding a truthy email or
username wins. -/
def ownerEmailOf (raw : List (String × Json)) : List String → String
  | [] => ""
  | k :: ks =>
    match jGetN raw k with
    | .obj o =>
      let candidate := pyOr (jGetN o "email") (jGetN o "username")
      if pyTruthy candidate then pyStrip (pyStr candidate) else ownerEmailOf raw ks
    | _ => ownerEmailOf raw ks

/-- _normalize_asset: field-by-field defensive normalization of one raw
asset record. -/
def normalize_asset (raw : List (String × Json)) (asset_type : String)
    (huntarea_id : Json) (huntarea_name : Json) : AssetRow :=
  let aid := pyOr (jGetN raw "id") (pyOr (jGetN raw "asset_id")
    (pyOr (jGetN raw "uuid") (.str "")))
  let name := pyOr (jGetN raw "name") (pyOr (jGetN raw "title")
    (pyOr (jGetN raw "label") (pyOr (jGetN raw "device_name")
      (pyOr (jGetN raw "camera_name")
        (.str (pyStripDash (pyTitle asset_type ++ "-" ++ pyStr aid)))))))
  let subtype := pyOr (jGetN raw "type") (pyOr (jGetN raw "subtype")
    (pyOr (jGetN raw "category") (.str "")))
  let latlon := extract_lat_lon raw
  let created := pyOr (jGetN raw "created") (pyOr (jGetN raw "date_created")
    (pyOr (jGetN raw "timestamp") (.str "")))
  let updated := pyOr (jGetN raw "updated") (pyOr (jGetN raw "modified")
    (pyOr (jGetN raw "last_updated") (.str "")))
  let last_activity := pyOr (jGetN raw "last_activity") (pyOr (jGetN raw "last_image")
    (pyOr (jGetN raw "last_check_in") (pyOr (jGetN raw "last_seen") (.str ""))))
  let owner_email := ownerEmailOf raw ["owner", "user", "profile"]
  let vis0 := jGetN raw "public"
  let vis1 := match vis0 with
    | .null => jGetN raw "shared"
    | v => v
  let visibility := match vis1 with
    | .bool true => "public"
    | .bool false => "private"
    | v => pyStr (pyOr v (.str ""))
  { huntarea_id := huntarea_id
    huntarea_name := huntarea_name
    asset_type := asset_type
    asset_id := aid
    name := pyTake 200 (pyStr name)
    subtype := pyTake 100 (pyStr (pyOr subtype (.str "")))
    latitude := latlon.1
    longitude := latlon.2
    created := pyStr created
    updated := pyStr updated
    last_activity := pyStr last_activity
    owner_email := owner_email
    visibility := visibility }

/-- One iteration of the fetch_assets_for_area endpoint loop: skip errors
and error statuses, extract an objects envelope or a bare list, and
normalize each dict record. -/
def fetchAssetsStep (t : HttpTransport) (hunt_id : Json) (huntarea_name : Json)
    (acc : List AssetRow × List String) (ep : String × String) :
    List AssetRow × List String :=
  let url := fmt ep.2 hunt_id
  match t url with
  | .error _ => (acc.1, acc.2 ++ [url])
  | .ok r =>
    if 400 ≤ r.status then (acc.1, acc.2 ++ [url])
    else
      let raw_list :=
        match r.body with
        | .obj kvs =>
          match jGet kvs "objects" with
          | some (.arr l) => l
          | _ => []
        | .arr l => l
        | _ => []
      (acc.1 ++ raw_list.filterMap (fun raw =>
          match raw with
          | .obj o => some (normalize_asset o ep.1 hunt_id huntarea_name)
          | _ => none),
       acc.2 ++ [url])

/-- fetch_assets_for_area: refuse unsafe ids, else iterate the active
endpoints, aggregating the normalized records of every usable response. -/
def fetch_assets_for_area (t : HttpTransport) (endpoints : List (String × String))
    (hunt_id : Json) (huntarea_name : Json) : List AssetRow × List String :=
  if !is_safe_id hunt_id then ([], [])
  else endpoints.foldl (fetchAssetsStep t hunt_id huntarea_name) ([], [])

/-- The probe classification of refine_active_asset_endpoints: a response
is usable when the GET succeeds with a non-error status and the body is
a bare list or a dict whose objects entry is a list. -/
def probeUsable (t : HttpTransport) (url : String) : Bool :=
  match t url with
  | .error _ => false
  | .ok r =>
    if 400 ≤ r.status then false
    else
      match r.body with
      | .arr _ => true
      | .obj kvs =>
        match jGet kvs "objects" with
        | some (.arr _) => true
        | _ => false
      | _ => false

/-- refine_active_asset_endpoints, as a pure function from the current
active endpoint list to the refined one: unsafe sample ids leave the
list unchanged; otherwise keep the candidates with usable probes, and
retain the original list when none is usable. -/
def refine_active_asset_endpoints (t : HttpTransport) (sample_hunt_id : Json)
    (active : List (String × String)) : List (String × String) :=
  if !is_safe_id sample_hunt_id then active
  else
    let kept := active.filter (fun ep => probeUsable t (fmt ep.2 sample_hunt_id))
    if kept.isEmpty then active else kept

/-! ## Membership rows and process_hunt_area -/

/-- The row dict appended by process_hunt_area for each member, invite
and request.  The name, email, rank and status entries are always
strings in the source; the id, area name and join date entries carry
whatever value the upstream response supplied. -/
structure MRow where
  huntarea_id : Json
  huntarea_name : Json
  name : String
  email : String
  rank : String
  status : String
  date_joined : Json

/-- mapM in the Option monad, written out so that proofs can recurse on
it directly; none propagates a modelled Python exception. -/
def optMapM (f : α → Option β) : List α → Option (List β)
  | [] => some []
  | x :: xs =>
    match f x, optMapM f xs with
    | some y, some ys => some (y :: ys)
    | _, _ => none

/-- The member loop body of process_hunt_area: names and emails are
fetched with empty-string defaults and stripped, rank is fixed to
member and status to active. -/
def memberRow (hid huntName : Json) (m : Json) : Option MRow :=
  match m with
  | .obj md =>
    match pyStrAttr (jGetD md "first_name" (.str "")),
          pyStrAttr (jGetD md "last_name" (.str "")),
          pyStrAttr (jGetD md "email" (.str "")) with
    | some fn, some ln, some em =>
      some { huntarea_id := hid
             huntarea_name := huntName
             name := pyStrip (pyStrip fn ++ " " ++ pyStrip ln)
             email := pyStrip em
             rank := "member"
             status := "active"
             date_joined := .str "" }
    | _, _, _ => none
  | _ => none

/-- The invite loop body of process_hunt_area. -/
def inviteRow (hid huntName : Json) (inv : Json) : Option MRow :=
  match inv with
  | .obj io =>
    let invite_name := pyOr (jGetN io "name") (pyOr (jGetN io "full_name") (.str ""))
    match pyStrAttr (pyOr (jGetN io "email") (.str "")) with
    | none => none
    | some em =>
      let rank0 :=
        match jGetN io "rank" with
        | .obj ro => pyOr (jGetN ro "name") (pyOr (jGetN ro "title") (.str ""))
        | rj => .str (pyStr (pyOr rj (.str "")))
      let rank1 :=
        if pyTruthy rank0 then rank0
        else pyOr (jGetN io "role") (pyOr (jGetN io "intended_rank") (.str ""))
      let invite_date := pyOr (jGetN io "date_joined")
        (pyOr (jGetN io "created") (pyOr (jGetN io "date_sent") (.str "")))
      match pyStrAttr invite_name, pyStrAttr rank1 with
      | some nm, some rk =>
        some { huntarea_id := hid
               huntarea_name := huntName
               name := pyStrip nm
               email := pyStrip em
               rank := pyStrip rk
               status := "invited"
               date_joined := invite_date }
      | _, _ => none
  | _ => none

/-- The request loop body of process_hunt_area: name and email resolved
from the nested profile dict, then from its nested user dict, with a
synthesized placeholder name when both name and email are empty. -/
def requestRow (hid huntName : Json) (rq : Json) : Option MRow :=
  let rd := as_dict rq
  let profile := as_dict (jGetD rd "profile" (.obj []))
  let user_data := as_dict (jGetD profile "user" (.obj []))
  match pyStrAttr (pyOr (jGetN profile "first_name") (pyOr (jGetN user_data "first_name") (.str ""))),
        pyStrAttr (pyOr (jGetN profile "last_name") (pyOr (jGetN user_data "last_name") (.str ""))),
        pyStrAttr (pyOr (jGetN profile "username") (pyOr (jGetN user_data "username") (.str ""))) with
  | some fn0, some ln0, some un0 =>
    let fn := pyStrip fn0
    let ln := pyStrip ln0
    let un := pyStrip un0
    let request_name := if fn ≠ "" ∨ ln ≠ "" then pyStrip (fn ++ " " ++ ln) else un
    match pyStrAttr (jGetD profile "email" (.str "")) with
    | none => none
    | some e0 =>
      let emailOpt :=
        if pyStrip e0 ≠ "" then some (pyStrip e0)
        else (pyStrAttr (jGetD user_data "email" (.str ""))).map pyStrip
      match emailOpt with
      | none => none
      | some request_email =>
        let rankOpt :=
          match jGetD rd "rank" (.obj []) with
          | .obj ro => (pyStrAttr (jGetD ro "name" (.str ""))).map pyStrip
          | _ => some ""
        match rankOpt with
        | none => none
        | some request_rank =>
          let request_date := jGetD rd "date_requested" (.str "")
          let request_name2 :=
            if request_name = "" ∧ request_email = "" then
              let profile_id := pyOr (jGetD profile "id" (.str "")) (jGetD user_data "id" (.str ""))
              if pyTruthy profile_id then
                (if pyTruthy (jGetN profile "id") then "Profile_" ++ pyStr profile_id
                 else "User_" ++ pyStr profile_id)
              else request_name
            else request_name
          some { huntarea_id := hid
                 huntarea_name := huntName
                 name := request_name2
                 email := request_email
                 rank := request_rank
                 status := "requested"
                 date_joined := request_date }
  | _, _, _ => none

/-- The per-area summary record of process_hunt_area.  The Python dict
literal is rendered as a structure; the two optional asset entries
exist only when asset collection is enabled. -/
structure AreaSummary where
  id : Json
  name : Json
  meta : List (String × Json)
  membersCount : Nat
  invitesCount : Nat
  requestsCount : Nat
  assetsCount : Option Nat
  membersSample : List Json
  invitesSample : List Json
  requestsSample : List Json
  assetsSample : Option (List AssetRow)

/-- The huntarea sub-dict of a club descriptor, when present. -/
def resolveHobj (kvs : List (String × Json)) : Option (List (String × Json)) :=
  match jGet kvs "huntarea" with
  | some (.obj o) => some o
  | _ => none

/-- The area id resolution of process_hunt_area: huntarea_id, then id,
then the nested huntarea dict's id. -/
def resolveHid (kvs : List (String × Json)) : Json :=
  pyOr (jGetN kvs "huntarea_id") (pyOr (jGetN kvs "id")
    (match resolveHobj kvs with | some o => jGetN o "id" | none => .null))

/-- The area metadata of process_hunt_area: the truthy huntarea
sub-dict, else the club dict itself. -/
def resolveHmeta (kvs : List (String × Json)) : List (String × Json) :=
  match resolveHobj kvs with
  | some o => if o.isEmpty then kvs else o
  | none => kvs

/-- The display-name resolution of process_hunt_area: the metadata
name, then the club name, then a synthesized Area-id placeholder. -/
def resolveHuntName (kvs : List (String × Json)) : Json :=
  pyOr (jGetN (resolveHmeta kvs) "name") (pyOr (jGetN kvs "name")
    (.str (match resolveHid kvs with
           | .null => "Area-Unknown"
           | v => "Area-" ++ pyStr v)))

/-- process_hunt_area.  The outer none models an uncaught exception
(non-dict club or a malformed record crashing a string method); the
inner none in the summary position is the empty dict returned when no
area id can be resolved.  The invites or-[] guard of the source is the
identity on lists and is omitted. -/
def process_hunt_area (t : HttpTransport) (activeEndpoints : List (String × String))
    (club : Json) (includeAssets : Bool) :
    Option (List MRow × List AssetRow × Option AreaSummary) :=
  match club with
  | .obj kvs =>
    match resolveHid kvs with
    | .null => some ([], [], none)
    | hid =>
      let huntName := resolveHuntName kvs
      let members := (fetch_members_for_area t hid).1
      let members_list := match members with
        | some j => json_or_list_to_objects j
        | none => []
      let invites := (fetch_invites_for_area t hid).1
      let reqs := (fetch_requests_for_area t hid).1
      match optMapM (memberRow hid huntName) members_list,
            optMapM (inviteRow hid huntName) invites,
            optMapM (requestRow hid huntName) reqs with
      | some mrows, some irows, some rrows =>
        let assets_for_area :=
          if includeAssets then (fetch_assets_for_area t activeEndpoints hid huntName).1
          else []
        some (mrows ++ irows ++ rrows, assets_for_area,
          some { id := hid
                 name := huntName
                 meta := resolveHmeta kvs
                 membersCount := members_list.length
                 invitesCount := invites.length
                 requestsCount := reqs.length
                 assetsCount := if includeAssets then some assets_for_area.length else none
                 membersSample := members_list.take 10
                 invitesSample := invites.take 10
                 requestsSample := reqs.take 10
                 assetsSample := if includeAssets then some (assets_for_area.take 10) else none })
      | _, _, _ => none
  | _ => none

/-! ## Membership matrix -/

/-- Python string comparison: code-point lexicographic order. -/
def strLtChars : List Char → List Char → Bool
  | [], [] => false
  | [], _ :: _ => true
  | _ :: _, [] => false
  | x :: xs, y :: ys =>
    if x.val < y.val then true
    else if y.val < x.val then false
    else strLtChars xs ys

def pyStrLt (a b : String) : Bool :=
  strLtChars a.data b.data

/-- Insert into a sorted duplicate-free list, the building block of the
Python sorted-set idiom. -/
def insertSorted (x : String) : List String → List String
  | [] => [x]
  | y :: ys =>
    if x == y then y :: ys
    else if pyStrLt x y then x :: y :: ys
    else y :: insertSorted x ys

/-- Python sorted(set(l)) for strings. -/
def sortDedup (l : List String) : List String :=
  l.foldr insertSorted []

/-- The hunt-area name column set of write_membership_matrix: the sorted
set of truthy huntarea_name values.  Python sorted raises when the set
mixes strings with non-strings, which none models. -/
def matrixHuntNames (rows : List MRow) : Option (List String) :=
  (optMapM (fun j => pyStrAttr j)
      (rows.filterMap (fun r => if pyTruthy r.huntarea_name then some r.huntarea_name else none))).map
    sortDedup

/-- The email row set of write_membership_matrix: the sorted set of
lower-cased, stripped emails of the rows with a truthy email. -/
def matrixEmails (rows : List MRow) : List String :=
  sortDedup (rows.filterMap (fun r =>
    if !(r.email == "") then some (pyStrip (pyLower r.email)) else none))

/-- Whether one row of the matrix fill loop writes into the cell of a
given email and hunt-area name: the row's normalized email must be the
cell's email and truthy, and the row's raw huntarea_name must equal
the cell's column name, a known column. -/
def cellHit (huntNames : List String) (email hname : String) (r : MRow) : Bool :=
  pyStrip (pyLower r.email) == email
    && !(pyStrip (pyLower r.email) == "")
    && (match r.huntarea_name with | .str s => s == hname | _ => false)
    && huntNames.contains hname

/-- One cell of the membership matrix: default No, overwritten by the
capitalized status of each row that hits the cell, in row order. -/
def matrixCell (rows : List MRow) (huntNames : List String) (email hname : String) : String :=
  rows.foldl (fun acc r => if cellHit huntNames email hname r then pyCapitalize r.status else acc) "No"

/-- write_membership_matrix, as the table of strings the CSV writer
emits: a header row of email plus the sorted hunt-area names, then one
row per email with the cell values in column order.  none models the
Python crash on non-string area names. -/
def write_membership_matrix (rows : List MRow) : Option (List (List String)) :=
  match matrixHuntNames rows with
  | none => none
  | some hnames =>
    some (("email" :: hnames) ::
      (matrixEmails rows).map (fun e => e :: hnames.map (fun h => matrixCell rows hnames e h)))

/-! ## Login fallback -/

/-- A cookie jar keyed by cookie name. -/
abbrev Jar : Type := List (String × String)

def jarGet (jar : Jar) (k : String) : Option String :=
  (jar.find? (fun p => p.1 == k)).map (fun p => p.2)

/-- Truthiness of cookies.get(name): None and the empty string are falsy. -/
def pyTruthyOpt : Option String → Bool
  | none => false
  | some s => !(s == "")

/-- The form payload attempt_login POSTs: the harvested CSRF token, the
password, the fixed web source marker, and the username under one of
the two candidate field names. -/
structure LoginPayload where
  csrfmiddlewaretoken : String
  password : String
  source : String
  userField : String
  username : String
deriving DecidableEq

/-- The requests attempt_login issues, in order. -/
inductive LoginCall where
  | getRoot
  | post (p : LoginPayload)
deriving DecidableEq

/-- A login transport: the root GET may update the jar or raise; a POST
of a payload against a jar yields an updated jar and a status code, or
raises. -/
structure LoginServer where
  rootGet : Jar → Except Unit Jar
  post : LoginPayload → Jar → Except Unit (Jar × Nat)

/-- One POST attempt of the attempt_login loop: on success of the
transport the new jar is inspected for a truthy sessionid cookie,
whatever the HTTP status; a raised POST leaves the jar unchanged. -/
def tryLoginField (srv : LoginServer) (p : LoginPayload) (jar : Jar) : Bool × Jar :=
  match srv.post p jar with
  | .ok (jar2, _status) => (pyTruthyOpt (jarGet jar2 "sessionid"), jar2)
  | .error _ => (false, jar)

/-- attempt_login: GET the root (ignoring failures), read the csrftoken
cookie with an empty default, then POST with the login field and, if no
sessionid cookie appeared, with the username field; the result records
success, the final jar, and the calls issued. -/
def attempt_login (srv : LoginServer) (jar : Jar) (username password : String) :
    Bool × Jar × List LoginCall :=
  let jar1 := match srv.rootGet jar with
    | .ok j => j
    | .error _ => jar
  let csrf := (jarGet jar1 "csrftoken").getD ""
  let p1 : LoginPayload :=
    { csrfmiddlewaretoken := csrf, password := password, source := "web",
      userField := "login", username := username }
  let r1 := tryLoginField srv p1 jar1
  if r1.1 then (true, r1.2, [.getRoot, .post p1])
  else
    let p2 : LoginPayload :=
      { csrfmiddlewaretoken := csrf, password := password, source := "web",
        userField := "username", username := username }
    let r2 := tryLoginField srv p2 r1.2
    if r2.1 then (true, r2.2, [.getRoot, .post p1, .post p2])
    else (false, r2.2, [.getRoot, .post p1, .post p2])

/-! ## Area discovery -/

/-- The two endpoints gather_huntareas can query. -/
inductive GatherCall where
  | myprofile
  | byProfile (pid : String)
deriving DecidableEq

/-- A transport for gather_huntareas: the myprofile GET and the
profile-scoped fallback GET, each already folding status checks and
parse failures into the error case. -/
structure GatherTransport where
  myprofile : Except Unit Json
  byProfile : String → Except Unit Json

/-- Truthiness of the optional fallback profile id argument. -/
def pyTruthyOptStr : Option String → Bool
  | none => false
  | some s => !(s == "")

/-- The fallback half of gather_huntareas: query the profile-scoped
listing exactly when a truthy fallback profile id was supplied and the
clubs list is empty, normalizing the response and keeping the previous
clubs on error. -/
def gatherFallback (t : GatherTransport) (fallbackProfileId : Option String)
    (clubs : List Json) (calls : List GatherCall) : List Json × List GatherCall :=
  if pyTruthyOptStr fallbackProfileId && clubs.length == 0 then
    match fallbackProfileId with
    | some pid =>
      (match t.byProfile pid with
       | .ok d => (json_or_list_to_objects d, calls ++ [.byProfile pid])
       | .error _ => (clubs, calls ++ [.byProfile pid]))
    | none => (clubs, calls)
  else (clubs, calls)

/-- gather_huntareas: read hunt_areas from myprofile (empty on request
failure), then possibly fall back.  A present non-list hunt_areas value
would make the Python function return a value outside its declared list
type; none models that out-of-contract shape. -/
def gather_huntareas (t : GatherTransport) (fallbackProfileId : Option String) :
    Option (List Json × List GatherCall) :=
  match t.myprofile with
  | .ok d =>
    (match jGetD (as_dict d) "hunt_areas" (.arr []) with
     | .arr clubs => some (gatherFallback t fallbackProfileId clubs [.myprofile])
     | _ => none)
  | .error _ => some (gatherFallback t fallbackProfileId [] [.myprofile])

/-! ## Session cloning -/

/-- The requests verify setting: a boolean or a CA-bundle path. -/
inductive VerifySetting where
  | flag (b : Bool)
  | caBundle (path : String)
deriving DecidableEq

/-- One cookie with the four attributes _clone_session copies. -/
structure PyCookie where
  name : String
  value : String
  domain : String
  path : String
deriving DecidableEq

/-- The observable session state the claims read: headers as a finite
map, the cookie jar, and the TLS verification setting.  The retry
adapter configuration of make_session_with_retries lives below the
transport and is not observable here. -/
structure PySession where
  headers : String → Option String
  cookies : List PyCookie
  verify : VerifySetting

/-- The default headers installed by make_session_with_retries. -/
def defaultHeaders : String → Option String :=
  fun k =>
    if k == "User-Agent" then some "Mozilla/5.0 (compatible; HuntStandExporter/1.0)"
    else if k == "X-Requested-With" then some "XMLHttpRequest"
    else if k == "Referer" then some (BASE_URL ++ "/")
    else if k == "Accept" then some "application/json, text/javascript, */*; q=0.01"
    else none

/-- make_session_with_retries: fresh session with the default headers,
an empty cookie jar, and TLS verification enabled. -/
def make_session_with_retries : PySession :=
  { headers := defaultHeaders, cookies := [], verify := .flag true }

/-- Python dict.update on header maps: keys of the update win. -/
def headersUpdate (base upd : String → Option String) : String → Option String :=
  fun k => match upd k with
    | some v => some v
    | none => base k

/-- requests cookie jar set: replace the cookie with the same name,
domain and path, else append. -/
def jarSetCookie (jar : List PyCookie) (c : PyCookie) : List PyCookie :=
  if jar.any (fun c2 => c2.name == c.name && c2.domain == c.domain && c2.path == c.path) then
    jar.map (fun c2 =>
      if c2.name == c.name && c2.domain == c.domain && c2.path == c.path then c else c2)
  else jar ++ [c]

/-- _clone_session: fresh session, parent headers merged over the
defaults, each parent cookie set with its name, value, domain and path,
and the parent's TLS verification setting copied. -/
def clone_session (parent : PySession) : PySession :=
  let child := make_session_with_retries
  let child := { child with headers := headersUpdate child.headers parent.headers }
  let child := { child with cookies := parent.cookies.foldl jarSetCookie child.cookies }
  { child with verify := parent.verify }

/-- fallback_disable_verify: disable TLS verification on the session. -/
def fallback_disable_verify (s : PySession) : PySession :=
  { s with verify := .flag false }

/-! ## Concrete instances used by witnesses and counterexamples -/

/-- A transport that fails every request. -/
def errorTransport : HttpTransport := fun _ => .error ()

/-- The projection of a login call to its POST user-field name
(none for the root GET). -/
def loginCallField : LoginCall → Option String
  | .getRoot => none
  | .post p => some p.userField

/-- The key under which the requests cookie jar stores a cookie. -/
def cookieKey (c : PyCookie) : String × String × String :=
  (c.name, c.domain, c.path)

/-- The spec's membership-matrix example rows. -/
def c2rows : List MRow :=
  [ { huntarea_id := .num 1, huntarea_name := .str "Alpha", name := "John Doe",
      email := "john@example.com", rank := "member", status := "active", date_joined := .str "" },
    { huntarea_id := .num 2, huntarea_name := .str "Beta", name := "Jane Smith",
      email := "jane@example.com", rank := "member", status := "active", date_joined := .str "" },
    { huntarea_id := .num 2, huntarea_name := .str "Beta", name := "Invitee One",
      email := "invitee@example.com", rank := "guest", status := "invited", date_joined := .str "2025-10-27" },
    { huntarea_id := .num 1, huntarea_name := .str "Alpha", name := "Requester Guy",
      email := "requester@example.com", rank := "", status := "requested", date_joined := .str "2025-10-27" } ]

/-- Rows where one email and area pair recurs as active, then invited,
then requested, in pipeline append order. -/
def c3rows : List MRow :=
  [ { huntarea_id := .num 1, huntarea_name := .str "Alpha", name := "P", email := "p@x.com",
      rank := "member", status := "active", date_joined := .str "" },
    { huntarea_id := .num 1, huntarea_name := .str "Alpha", name := "P", email := "p@x.com",
      rank := "", status := "invited", date_joined := .str "" },
    { huntarea_id := .num 1, huntarea_name := .str "Alpha", name := "P", email := "p@x.com",
      rank := "", status := "requested", date_joined := .str "" } ]

/-- Members payload for the aggregation-isolation scenario. -/
def c5mbody : Json := .obj [("objects", .arr
  [.obj [("first_name", .str "A"), ("last_name", .str "B"), ("email", .str "a@b.com")],
   .obj [("first_name", .str "C"), ("last_name", .str "D"), ("email", .str "c@d.com")]])]

/-- Requests payload for the aggregation-isolation scenario. -/
def c5rbody : Json := .arr
  [.obj [("profile", .obj [("first_name", .str "R"), ("last_name", .str "Q"),
     ("email", .str "rq@x.com")]), ("rank", .obj [("name", .str "guest")]),
     ("date_requested", .str "2025-01-01")]]

/-- A transport whose invites endpoint raises while the members and
requests endpoints succeed for area 7. -/
def c5transport : HttpTransport := fun url =>
  if url == fmt MEMBERS_URL (.num 7) then .ok ⟨200, c5mbody⟩
  else if url == fmt REQS_URL (.num 7) then .ok ⟨200, c5rbody⟩
  else .error ()

/-- A normalized club descriptor for area 7 named Alpha. -/
def c5club : Json := .obj [("huntarea_id", .num 7),
  ("huntarea", .obj [("id", .num 7), ("name", .str "Alpha")])]

/-- The member rows of the aggregation-isolation scenario. -/
def c5mrows : List MRow :=
  [ { huntarea_id := .num 7, huntarea_name := .str "Alpha", name := "A B",
      email := "a@b.com", rank := "member", status := "active", date_joined := .str "" },
    { huntarea_id := .num 7, huntarea_name := .str "Alpha", name := "C D",
      email := "c@d.com", rank := "member", status := "active", date_joined := .str "" } ]

/-- The request rows of the aggregation-isolation scenario. -/
def c5rrows : List MRow :=
  [ { huntarea_id := .num 7, huntarea_name := .str "Alpha", name := "R Q",
      email := "rq@x.com", rank := "guest", status := "requested", date_joined := .str "2025-01-01" } ]

/-- A login transport that never sets any cookie on POST: the root GET
and both POSTs return a jar holding only a csrftoken. -/
def loginServerFail : LoginServer :=
  { rootGet := fun _ => .ok [("csrftoken", "abc")]
    post := fun _ _ => .ok ([("csrftoken", "abc")], 200) }

/-- A login transport that sets the sessionid cookie on every POST while
returning an error status code. -/
def loginServerSucc : LoginServer :=
  { rootGet := fun j => .ok j
    post := fun _ j => .ok (j ++ [("sessionid", "sess-123")], 403) }

/-- Gather transport: primary succeeds with an empty hunt_areas list,
fallback returns one objects-enveloped area. -/
def gatherEmptyPrimary : GatherTransport :=
  { myprofile := .ok (.obj [("hunt_areas", .arr [])])
    byProfile := fun _ => .ok (.obj [("objects",
        .arr [.obj [("id", .num 10), ("name", .str "Fallback Area")]])]) }

/-- Gather transport: primary raises, fallback returns one bare-list area. -/
def gatherErrorPrimary : GatherTransport :=
  { myprofile := .error ()
    byProfile := fun _ => .ok (.arr [.obj [("id", .num 99), ("name", .str "Error Fallback")]]) }

/-- Gather transport: primary succeeds with one hunt area. -/
def gatherFullPrimary : GatherTransport :=
  { myprofile := .ok (.obj [("hunt_areas", .arr [.obj [("id", .num 1), ("name", .str "Main")]])])
    byProfile := fun _ => .ok (.arr [.obj [("id", .num 99)]]) }

/-- Three probe candidates: a usable bare-list endpoint, an unusable
dict endpoint, and a usable objects-envelope endpoint. -/
def probeCandidates : List (String × String) :=
  [("camera", "https://example/api/v1/camera/?huntarea_id=\x7b\x7d"),
   ("broken", "https://example/api/v1/broken/?huntarea_id=\x7b\x7d"),
   ("stand", "https://example/api/v1/stand/?huntarea_id=\x7b\x7d")]

/-- The probe transport for the three candidates above. -/
def probeTransport : HttpTransport := fun url =>
  if url == fmt "https://example/api/v1/camera/?huntarea_id=\x7b\x7d" (.str "abc123") then
    .ok ⟨200, .arr [.obj [("id", .str "c1"), ("name", .str "Cam")]]⟩
  else if url == fmt "https://example/api/v1/stand/?huntarea_id=\x7b\x7d" (.str "abc123") then
    .ok ⟨200, .obj [("objects", .arr [.obj [("id", .str "s1"), ("name", .str "Stand")]])]⟩
  else .ok ⟨200, .obj [("detail", .str "error")]⟩

/-- A transport whose members endpoint returns a record with an
upper-case email for area 3. -/
def c9transport : HttpTransport := fun url =>
  if url == fmt MEMBERS_URL (.num 3) then
    .ok ⟨200, .arr [.obj [("first_name", .str "John"), ("last_name", .str "Doe"),
      ("email", .str " John@Example.com ")]]⟩
  else .error ()

/-- A club descriptor for area 3. -/
def c9club : Json := .obj [("huntarea_id", .num 3),
  ("huntarea", .obj [("id", .num 3), ("name", .str "Caps")])]

/-- A parent session with a custom header, two cookies and verification
still enabled. -/
def c10parent : PySession :=
  { headers := fun k => if k == "X-Custom" then some "v" else defaultHeaders k
    cookies := [⟨"sessionid", "s1", "app.huntstand.com", "/"⟩,
                ⟨"csrftoken", "c1", "app.huntstand.com", "/"⟩]
    verify := .caBundle "/etc/ssl/certifi.pem" }

/-- The single row of the upper-case email scenario. -/
def c9row : MRow :=
  { huntarea_id := .num 3, huntarea_name := .str "Caps", name := "John Doe",
    email := "John@Example.com", rank := "member", status := "active", date_joined := .str "" }

/-- The summary of the upper-case email scenario. -/
def c9summary : AreaSummary :=
  { id := .num 3, name := .str "Caps",
    meta := [("id", .num 3), ("name", .str "Caps")],
    membersCount := 1, invitesCount := 0, requestsCount := 0, assetsCount := none,
    membersSample := [.obj [("first_name", .str "John"), ("last_name", .str "Doe"),
      ("email", .str " John@Example.com ")]],
    invitesSample := [], requestsSample := [], assetsSample := none }

/-- A parent session with TLS verification already disabled. -/
def c10parentNoVerify : PySession :=
  fallback_disable_verify c10parent

/-! ## Helper lemmas -/

theorem dropWhile_eq_self_of_all {α : Type} (p : α → Bool) (l : List α)
    (h : ∀ c ∈ l, p c = false) : l.dropWhile p = l := by
  cases l with
  | nil => rfl
  | cons a t => simp [List.dropWhile_cons, h a (List.mem_cons_self a t)]

theorem dropWhile_dropWhile {α : Type} (p : α → Bool) (l : List α) :
    (l.dropWhile p).dropWhile p = l.dropWhile p := by
  have hh := List.head?_dropWhile_not p l
  cases hd : l.dropWhile p with
  | nil => rfl
  | cons a t =>
    rw [hd] at hh
    simp only [List.head?] at hh
    simp [List.dropWhile_cons, hh]

theorem head?_stripBy (p : Char → Bool) (l : List Char) (c : Char)
    (h : (stripBy p l).head? = some c) : p c = false := by
  unfold stripBy at h
  rw [List.head?_reverse] at h
  obtain ⟨t, ht⟩ := List.dropWhile_suffix (l := (l.dropWhile p).reverse) p
  have h2 : (t ++ (l.dropWhile p).reverse.dropWhile p).getLast? = some c := by
    rw [List.getLast?_append, h]
    rfl
  rw [ht, List.getLast?_reverse] at h2
  have hh := List.head?_dropWhile_not p l
  rw [h2] at hh
  exact hh

theorem stripBy_idem (p : Char → Bool) (l : List Char) :
    stripBy p (stripBy p l) = stripBy p l := by
  have h1 : (stripBy p l).dropWhile p = stripBy p l := by
    cases hS : stripBy p l with
    | nil => rfl
    | cons a t =>
      have ha : p a = false := head?_stripBy p l a (by rw [hS]; rfl)
      simp [List.dropWhile_cons, ha]
  have h2 : (stripBy p l).reverse = (l.dropWhile p).reverse.dropWhile p := by
    unfold stripBy
    rw [List.reverse_reverse]
  calc stripBy p (stripBy p l)
      = (((stripBy p l).dropWhile p).reverse.dropWhile p).reverse := rfl
    _ = ((stripBy p l).reverse.dropWhile p).reverse := by rw [h1]
    _ = (((l.dropWhile p).reverse.dropWhile p).dropWhile p).reverse := by rw [h2]
    _ = ((l.dropWhile p).reverse.dropWhile p).reverse := by rw [dropWhile_dropWhile]
    _ = stripBy p l := rfl

theorem stripBy_eq_self (p : Char → Bool) (l : List Char)
    (h : ∀ c ∈ l, p c = false) : stripBy p l = l := by
  unfold stripBy
  rw [dropWhile_eq_self_of_all p l h,
    dropWhile_eq_self_of_all p l.reverse (fun c hc => h c (List.mem_reverse.mp hc)),
    List.reverse_reverse]

theorem pyStrip_idem (s : String) : pyStrip (pyStrip s) = pyStrip s := by
  unfold pyStrip
  rw [show (String.mk (stripBy pyIsSpace s.data)).data = stripBy pyIsSpace s.data from rfl,
    stripBy_idem]

theorem pyStrip_eq_self (s : String) (h : ∀ c ∈ s.data, pyIsSpace c = false) :
    pyStrip s = s := by
  unfold pyStrip
  rw [stripBy_eq_self pyIsSpace s.data h]

theorem foldl_overwrite {α β : Type} (f : α → Bool) (g : α → β) (l : List α) (a : β) :
    l.foldl (fun acc r => if f r then g r else acc) a =
      ((l.reverse.find? f).map g).getD a := by
  induction l generalizing a with
  | nil => rfl
  | cons x t ih =>
    rw [List.foldl_cons, ih, List.reverse_cons, List.find?_append]
    cases ht : t.reverse.find? f with
    | some r => rfl
    | none =>
      cases hx : f x <;> simp [List.find?, hx]

theorem optMapM_length {α β : Type} (f : α → Option β) (l : List α) (l2 : List β)
    (h : optMapM f l = some l2) : l2.length = l.length := by
  induction l generalizing l2 with
  | nil =>
    unfold optMapM at h
    cases h
    rfl
  | cons x t ih =>
    unfold optMapM at h
    cases hx : f x with
    | none => rw [hx] at h; exact absurd h (by simp)
    | some y =>
      cases ht : optMapM f t with
      | none => rw [hx, ht] at h; exact absurd h (by simp)
      | some ys =>
        rw [hx, ht] at h
        cases h
        simp [ih ys ht]

theorem optMapM_mem {α β : Type} (f : α → Option β) (l : List α) (l2 : List β)
    (h : optMapM f l = some l2) : ∀ y ∈ l2, ∃ x ∈ l, f x = some y := by
  induction l generalizing l2 with
  | nil =>
    unfold optMapM at h
    cases h
    intro y hy
    exact absurd hy (by simp)
  | cons x t ih =>
    unfold optMapM at h
    cases hx : f x with
    | none => rw [hx] at h; exact absurd h (by simp)
    | some y0 =>
      cases ht : optMapM f t with
      | none => rw [hx, ht] at h; exact absurd h (by simp)
      | some ys =>
        rw [hx, ht] at h
        cases h
        intro y hy
        rcases List.mem_cons.mp hy with hy0 | hys
        · exact ⟨x, List.mem_cons_self x t, hy0 ▸ hx⟩
        · obtain ⟨x2, hx2, hfx2⟩ := ih ys ht y hys
          exact ⟨x2, List.mem_cons_of_mem x hx2, hfx2⟩

/-! ## Claim theorems -/

/-- Claim C1 counterexample: the string " 123 " contains characters
(spaces) outside the hex-and-dash class, so the claim as stated demands
that is_safe_id reject it and that the fetchers refuse to issue a
network call; but is_safe_id strips the candidate before the character
check, accepts it, and fetch_members_for_area issues a GET whose URL
interpolates the untrimmed value. -/
theorem claim1_counterexample :
    (' ' ∈ " 123 ".data ∧ ' ' ∉ hexDashChars)
    ∧ is_safe_id (.str " 123 ") = true
    ∧ (fetch_members_for_area errorTransport (.str " 123 ")).2
        = [BASE_URL ++ "/api/v1/clubmember/?huntarea_id= 123 "] := by
  refine ⟨⟨by decide, by decide⟩, by decide, ?_⟩
  rfl

/-- Claim C1, amended: the character check applies to the trimmed
candidate.  For every identifier that is None, or a string whose
trimmed form is empty or contains a character outside hex digits and
dashes, is_safe_id returns false; whenever is_safe_id returns false,
each per-area fetch returns its empty or None result with no network
request; every int and every non-empty string composed solely of hex
digits and dashes is accepted. -/
theorem claim1_amended :
    (∀ (t : HttpTransport) (eps : List (String × String)) (hname v : Json),
      is_safe_id v = false →
      fetch_members_for_area t v = (none, [])
      ∧ fetch_invites_for_area t v = ([], [])
      ∧ fetch_requests_for_area t v = ([], [])
      ∧ fetch_assets_for_area t eps v hname = ([], []))
    ∧ is_safe_id .null = false
    ∧ (∀ s : String, pyStrip s = "" → is_safe_id (.str s) = false)
    ∧ (∀ s : String, (∃ c ∈ (pyStrip s).data, c ∉ hexDashChars) → is_safe_id (.str s) = false)
    ∧ (∀ n : Int, is_safe_id (.num n) = true)
    ∧ (∀ s : String, s ≠ "" → (∀ c ∈ s.data, c ∈ hexDashChars) → is_safe_id (.str s) = true) := by
  refine ⟨?_, rfl, ?_, ?_, fun n => rfl, ?_⟩
  · intro t eps hname v hv
    refine ⟨?_, ?_, ?_, ?_⟩
    · simp [fetch_members_for_area, hv]
    · simp [fetch_invites_for_area, hv]
    · simp [fetch_requests_for_area, hv]
    · simp [fetch_assets_for_area, hv]
  · intro s hs
    simp [is_safe_id, hs]
  · intro s hs
    rcases hs with ⟨c, hc, hnot⟩
    simp only [is_safe_id, Bool.and_eq_false_iff]
    right
    rw [List.all_eq_false]
    refine ⟨c, hc, ?_⟩
    simp [List.elem_iff, hnot]
  · intro s hne hall
    have hnospace : ∀ c ∈ s.data, pyIsSpace c = false := by
      intro c hc
      have hcl : c ∈ hexDashChars := hall c hc
      revert hcl
      have : ∀ c2 ∈ hexDashChars, pyIsSpace c2 = false := by decide
      exact this c
    have hstrip : pyStrip s = s := pyStrip_eq_self s hnospace
    simp only [is_safe_id, hstrip, Bool.and_eq_true]
    constructor
    · simpa using hne
    · rw [List.all_eq_true]
      intro c hc
      simp [List.elem_iff, hall c hc]

/-- Claim C1 amended, witness: a rejected identifier with a slash is
refused by every fetcher without a request, and an int and a UUID-like
string are accepted. -/
theorem claim1_amended_witness :
    is_safe_id (.str "abc;rm") = false
    ∧ fetch_members_for_area errorTransport (.str "abc;rm") = (none, [])
    ∧ fetch_invites_for_area errorTransport (.str "abc;rm") = ([], [])
    ∧ fetch_requests_for_area errorTransport (.str "abc;rm") = ([], [])
    ∧ fetch_assets_for_area errorTransport probeCandidates (.str "abc;rm") (.str "X") = ([], [])
    ∧ is_safe_id (.num 123) = true
    ∧ is_safe_id (.str "123-456-789") = true := by
  have h0 : is_safe_id (.str "abc;rm") = false :=
    claim1_amended.2.2.2.1 "abc;rm" ⟨';', by decide, by decide⟩
  have h1 := claim1_amended.1 errorTransport probeCandidates (.str "X") (.str "abc;rm") h0
  exact ⟨h0, h1.1, h1.2.1, h1.2.2.1, h1.2.2.2, claim1_amended.2.2.2.2.1 123,
    claim1_amended.2.2.2.2.2 "123-456-789" (by decide) (by decide)⟩

/-- Claim C2: the membership matrix of the four example rows has the
header email, Alpha, Beta and exactly four data rows with the claimed
cell values, and the matrix of no rows is the header-only table with
the single email column. -/
theorem claim2 :
    write_membership_matrix c2rows =
      some [["email", "Alpha", "Beta"],
            ["invitee@example.com", "No", "Invited"],
            ["jane@example.com", "No", "Active"],
            ["john@example.com", "Active", "No"],
            ["requester@example.com", "Requested", "No"]]
    ∧ write_membership_matrix [] = some [["email"]] := by
  exact ⟨rfl, rfl⟩

/-- Claim C3: in the matrix pivot the final value of a cell is the
capitalized status of the last row in iteration order that writes into
it (same normalized truthy email, same known area name), and a cell no
row writes into keeps the default No. -/
theorem claim3 (rows : List MRow) (huntNames : List String) (email hname : String) :
    matrixCell rows huntNames email hname =
      (((rows.reverse.find? (cellHit huntNames email hname)).map
        (fun r => pyCapitalize r.status)).getD "No") := by
  unfold matrixCell
  exact foldl_overwrite (cellHit huntNames email hname) (fun r => pyCapitalize r.status) rows "No"

/-- Claim C3 witness: with the same email and area appearing as active,
then invited, then requested, the cell ends as Requested, and an email
with no relationship to the area keeps No. -/
theorem claim3_witness :
    matrixCell c3rows ["Alpha"] "p@x.com" "Alpha" = "Requested"
    ∧ matrixCell c3rows ["Alpha"] "other@x.com" "Alpha" = "No" :=
  ⟨(claim3 c3rows ["Alpha"] "p@x.com" "Alpha").trans rfl,
   (claim3 c3rows ["Alpha"] "other@x.com" "Alpha").trans rfl⟩

/-- Claim C4: the payload normalizer returns a list unchanged, the
objects list of a dict holding one, the values of any other dict, and
the empty list for None. -/
theorem claim4 :
    (∀ l : List Json, json_or_list_to_objects (.arr l) = l)
    ∧ (∀ (kvs : List (String × Json)) (l : List Json),
        jGet kvs "objects" = some (.arr l) → json_or_list_to_objects (.obj kvs) = l)
    ∧ (∀ kvs : List (String × Json),
        (∀ l : List Json, jGet kvs "objects" ≠ some (.arr l)) →
        json_or_list_to_objects (.obj kvs) = jValues kvs)
    ∧ json_or_list_to_objects .null = [] := by
  refine ⟨fun l => rfl, ?_, ?_, rfl⟩
  · intro kvs l h
    simp [json_or_list_to_objects, h]
  · intro kvs h
    simp only [json_or_list_to_objects]

/-- Claim C4 witness: the four shapes at concrete payloads. -/
theorem claim4_witness :
    json_or_list_to_objects (.arr [.num 1, .num 2]) = [.num 1, .num 2]
    ∧ json_or_list_to_objects (.obj [("objects", .arr [.num 3])]) = [.num 3]
    ∧ json_or_list_to_objects (.obj [("a", .num 4), ("b", .num 5)]) = [.num 4, .num 5]
    ∧ json_or_list_to_objects .null = [] := by
  refine ⟨claim4.1 [.num 1, .num 2], ?_, ?_, claim4.2.2.2⟩
  · exact claim4.2.1 [("objects", .arr [.num 3])] [.num 3] rfl
  · refine (claim4.2.2.1 [("a", .num 4), ("b", .num 5)] ?_).trans rfl
    intro l h
    rw [show jGet [("a", Json.num 4), ("b", Json.num 5)] "objects" = none from rfl] at h
    exact Option.noConfusion h

/-- Claim C6: against a transport that never yields a jar with a truthy
sessionid cookie, attempt_login returns false after exactly one root
GET and two POSTs keyed login then username; against a transport whose
first POST yields a jar with the sessionid cookie, it returns true
after a single POST, whatever the HTTP status of that POST. -/
theorem claim6 :
    (∀ (srv : LoginServer) (jar : Jar) (u pw : String),
      pyTruthyOpt (jarGet jar "sessionid") = false →
      (∀ (j j2 : Jar), srv.rootGet j = .ok j2 → pyTruthyOpt (jarGet j2 "sessionid") = false) →
      (∀ (p : LoginPayload) (j j2 : Jar) (st : Nat),
        srv.post p j = .ok (j2, st) → pyTruthyOpt (jarGet j2 "sessionid") = false) →
      (attempt_login srv jar u pw).1 = false
      ∧ (attempt_login srv jar u pw).2.2.map loginCallField
          = [none, some "login", some "username"])
    ∧ (∀ (srv : LoginServer) (jar jar1 jar2 : Jar) (u pw : String) (st : Nat),
      srv.rootGet jar = .ok jar1 →
      srv.post { csrfmiddlewaretoken := (jarGet jar1 "csrftoken").getD "",
                 password := pw, source := "web", userField := "login", username := u } jar1
        = .ok (jar2, st) →
      pyTruthyOpt (jarGet jar2 "sessionid") = true →
      (attempt_login srv jar u pw).1 = true
      ∧ (attempt_login srv jar u pw).2.2.map loginCallField = [none, some "login"]) := by
  constructor
  · intro srv jar u pw h0 hroot hpost
    have step1 : ∀ (p : LoginPayload) (j : Jar), pyTruthyOpt (jarGet j "sessionid") = false →
        (tryLoginField srv p j).1 = false
        ∧ pyTruthyOpt (jarGet (tryLoginField srv p j).2 "sessionid") = false := by
      intro p j hj
      unfold tryLoginField
      cases hp : srv.post p j with
      | ok r =>
        have := hpost p j r.1 r.2 (by rw [hp])
        simp [this]
      | error e => simp [hj]
    have hjar1 : ∃ jar1 : Jar,
        (match srv.rootGet jar with | .ok j => j | .error _ => jar) = jar1
        ∧ pyTruthyOpt (jarGet jar1 "sessionid") = false := by
      cases hr : srv.rootGet jar with
      | ok j2 => exact ⟨j2, rfl, hroot jar j2 hr⟩
      | error e => exact ⟨jar, rfl, h0⟩
    obtain ⟨jar1, hj1eq, h1⟩ := hjar1
    unfold attempt_login
    simp only [hj1eq]
    have s1 := step1
      { csrfmiddlewaretoken := (jarGet jar1 "csrftoken").getD "", password := pw,
        source := "web", userField := "login", username := u } jar1 h1
    simp only [s1.1, Bool.false_eq_true, if_false]
    have s2 := step1
      { csrfmiddlewaretoken := (jarGet jar1 "csrftoken").getD "", password := pw,
        source := "web", userField := "username", username := u } _ s1.2
    simp only [s2.1, Bool.false_eq_true, if_false]
    simp [loginCallField]
  · intro srv jar jar1 jar2 u pw st hroot hpost hsess
    unfold attempt_login
    simp only [hroot]
    unfold tryLoginField
    simp only [hpost, hsess, if_true]
    simp [loginCallField]

/-- Claim C6 witness: concrete fail and success transports. -/
theorem claim6_witness :
    (attempt_login loginServerFail [] "user@example.com" "pw").1 = false
    ∧ (attempt_login loginServerFail [] "user@example.com" "pw").2.2.map loginCallField
        = [none, some "login", some "username"]
    ∧ (attempt_login loginServerSucc [("csrftoken", "abc")] "user@example.com" "pw").1 = true
    ∧ (attempt_login loginServerSucc [("csrftoken", "abc")] "user@example.com" "pw").2.2.map
        loginCallField = [none, some "login"] := by
  have ha := claim6.1 loginServerFail [] "user@example.com" "pw" (by decide)
    (fun j j2 h => by cases h; decide)
    (fun p j j2 st h => by cases h; decide)
  have hb := claim6.2 loginServerSucc [("csrftoken", "abc")] [("csrftoken", "abc")]
    [("csrftoken", "abc"), ("sessionid", "sess-123")] "user@example.com" "pw" 403
    rfl rfl (by decide)
  exact ⟨ha.1, ha.2, hb.1, hb.2⟩

/-- Claim C7: the profile-scoped fallback endpoint is queried exactly
when a truthy fallback profile id was supplied and the primary
myprofile source yielded no hunt areas, whether the primary raised or
returned an empty list; with an empty primary and a one-area fallback
the result is exactly that area with both endpoints called; a
non-empty primary list is returned without calling the fallback; and
without a truthy fallback id only the primary endpoint is called. -/
theorem claim7 :
    (∀ (t : GatherTransport) (pid : String) (md d area : Json),
      pid ≠ "" →
      t.myprofile = .ok md →
      jGetD (as_dict md) "hunt_areas" (.arr []) = .arr [] →
      t.byProfile pid = .ok d →
      json_or_list_to_objects d = [area] →
      gather_huntareas t (some pid) = some ([area], [.myprofile, .byProfile pid]))
    ∧ (∀ (t : GatherTransport) (pid : String) (d area : Json),
      pid ≠ "" →
      t.myprofile = .error () →
      t.byProfile pid = .ok d →
      json_or_list_to_objects d = [area] →
      gather_huntareas t (some pid) = some ([area], [.myprofile, .byProfile pid]))
    ∧ (∀ (t : GatherTransport) (fpid : Option String) (md : Json) (l : List Json),
      t.myprofile = .ok md →
      jGetD (as_dict md) "hunt_areas" (.arr []) = .arr l →
      l ≠ [] →
      gather_huntareas t fpid = some (l, [.myprofile]))
    ∧ (∀ (t : GatherTransport) (fpid : Option String) (md : Json) (l : List Json),
      pyTruthyOptStr fpid = false →
      t.myprofile = .ok md →
      jGetD (as_dict md) "hunt_areas" (.arr []) = .arr l →
      gather_huntareas t fpid = some (l, [.myprofile])) := by
  refine ⟨?_, ?_, ?_, ?_⟩
  · intro t pid md d area hpid hmy hareas hby hnorm
    unfold gather_huntareas
    simp only [hmy, hareas]
    unfold gatherFallback
    have hp2 : pyTruthyOptStr (some pid) = true := by
      simp [pyTruthyOptStr, hpid]
    rw [hp2]
    simp [hby, hnorm]
  · intro t pid d area hpid hmy hby hnorm
    unfold gather_huntareas
    simp only [hmy]
    unfold gatherFallback
    have hp2 : pyTruthyOptStr (some pid) = true := by
      simp [pyTruthyOptStr, hpid]
    rw [hp2]
    simp [hby, hnorm]
  · intro t fpid md l hmy hareas hne
    unfold gather_huntareas
    simp only [hmy, hareas]
    unfold gatherFallback
    have hl : (l.length == 0) = false := by
      cases l with
      | nil => exact absurd rfl hne
      | cons a t2 => simp
    rw [hl]
    simp
  · intro t fpid md l hfp hmy hareas
    unfold gather_huntareas
    simp only [hmy, hareas]
    unfold gatherFallback
    rw [hfp]
    simp

/-- Claim C7 witness: the empty-primary, raising-primary, non-empty
primary and no-fallback-id scenarios at concrete transports. -/
theorem claim7_witness :
    gather_huntareas gatherEmptyPrimary (some "123")
      = some ([.obj [("id", .num 10), ("name", .str "Fallback Area")]],
          [.myprofile, .byProfile "123"])
    ∧ gather_huntareas gatherErrorPrimary (some "456")
      = some ([.obj [("id", .num 99), ("name", .str "Error Fallback")]],
          [.myprofile, .byProfile "456"])
    ∧ gather_huntareas gatherFullPrimary (some "123")
      = some ([.obj [("id", .num 1), ("name", .str "Main")]], [.myprofile])
    ∧ gather_huntareas gatherEmptyPrimary none = some ([], [.myprofile]) := by
  refine ⟨?_, ?_, ?_, ?_⟩
  · exact claim7.1 gatherEmptyPrimary "123" (.obj [("hunt_areas", .arr [])])
      (.obj [("objects", .arr [.obj [("id", .num 10), ("name", .str "Fallback Area")]])])
      (.obj [("id", .num 10), ("name", .str "Fallback Area")])
      (by decide) rfl rfl rfl rfl
  · exact claim7.2.1 gatherErrorPrimary "456"
      (.arr [.obj [("id", .num 99), ("name", .str "Error Fallback")]])
      (.obj [("id", .num 99), ("name", .str "Error Fallback")])
      (by decide) rfl rfl rfl
  · exact claim7.2.2.1 gatherFullPrimary (some "123")
      (.obj [("hunt_areas", .arr [.obj [("id", .num 1), ("name", .str "Main")]])])
      [.obj [("id", .num 1), ("name", .str "Main")]]
      rfl rfl (by intro h; exact List.noConfusion h)
  · exact claim7.2.2.2 gatherEmptyPrimary none (.obj [("hunt_areas", .arr [])]) []
      rfl rfl rfl

/-- Claim C8: with a safe sample id, refinement replaces the active
endpoint set with exactly the candidates whose probe is usable (a
successful response whose body is a bare list or a dict with an
objects list), and retains the original list unchanged when no
candidate is usable. -/
theorem claim8 (t : HttpTransport) (sid : Json) (active : List (String × String))
    (hsafe : is_safe_id sid = true) :
    (active.filter (fun ep => probeUsable t (fmt ep.2 sid)) ≠ [] →
      refine_active_asset_endpoints t sid active
        = active.filter (fun ep => probeUsable t (fmt ep.2 sid)))
    ∧ (active.filter (fun ep => probeUsable t (fmt ep.2 sid)) = [] →
      refine_active_asset_endpoints t sid active = active) := by
  unfold refine_active_asset_endpoints
  rw [hsafe]
  constructor
  · intro hne
    simp [List.isEmpty_iff, hne]
  · intro he
    simp [he]

/-- Claim C8 witness: of three candidates, the bare-list endpoint and
the objects-envelope endpoint are kept and the unusable one dropped;
with an all-failing transport the original list is retained. -/
theorem claim8_witness :
    refine_active_asset_endpoints probeTransport (.str "abc123") probeCandidates
      = [("camera", "https://example/api/v1/camera/?huntarea_id=\x7b\x7d"),
         ("stand", "https://example/api/v1/stand/?huntarea_id=\x7b\x7d")]
    ∧ refine_active_asset_endpoints errorTransport (.str "abc123") probeCandidates
      = probeCandidates := by
  constructor
  · have h := (claim8 probeTransport (.str "abc123") probeCandidates (by decide)).1
      (by decide)
    rw [h]
    decide
  · exact (claim8 errorTransport (.str "abc123") probeCandidates (by decide)).2 (by decide)

/-- Every row the member loop emits has a stripped email and status
active. -/
theorem memberRow_email_status (hid hn m : Json) (r : MRow)
    (h : memberRow hid hn m = some r) :
    pyStrip r.email = r.email ∧ r.status = "active" := by
  unfold memberRow at h
  split at h
  · split at h
    · cases h
      exact ⟨pyStrip_idem _, rfl⟩
    · exact Option.noConfusion h
  · exact Option.noConfusion h

/-- Every row the invite loop emits has a stripped email and status
invited. -/
theorem inviteRow_email_status (hid hn inv : Json) (r : MRow)
    (h : inviteRow hid hn inv = some r) :
    pyStrip r.email = r.email ∧ r.status = "invited" := by
  unfold inviteRow at h
  cases inv <;> dsimp only at h <;> try exact Option.noConfusion h
  split at h <;> try exact Option.noConfusion h
  split at h <;> try exact Option.noConfusion h
  cases h
  exact ⟨pyStrip_idem _, rfl⟩

/-- Every row the request loop emits has a stripped email and status
requested. -/
theorem requestRow_email_status (hid hn rq : Json) (r : MRow)
    (h : requestRow hid hn rq = some r) :
    pyStrip r.email = r.email ∧ r.status = "requested" := by
  unfold requestRow at h
  dsimp only at h
  split at h <;> try exact Option.noConfusion h
  split at h <;> try exact Option.noConfusion h
  split at h <;> try exact Option.noConfusion h
  next re heq =>
  split at h <;> try exact Option.noConfusion h
  cases h
  refine ⟨?_, rfl⟩
  split at heq
  · cases heq
    exact pyStrip_idem _
  · rcases Option.map_eq_some'.mp heq with ⟨e2, hx, he2⟩
    rw [← he2]
    exact pyStrip_idem _

/-- Claim C9 counterexample: a member record whose email is the
space-padded mixed-case string " John@Example.com " produces a
MembershipRow whose email is trimmed but not lower-cased, so the
claimed lower-casing at creation time does not hold. -/
theorem claim9_counterexample :
    (process_hunt_area c9transport [] c9club false).map
        (fun x => x.1.map (fun r => r.email))
      = some ["John@Example.com"]
    ∧ pyLower "John@Example.com" ≠ "John@Example.com" := by
  exact ⟨rfl, by decide⟩

/-- Claim C9, amended: every MembershipRow produced by process_hunt_area
has its email field trimmed at creation time (member, invite and
request rows alike) and its status field exactly one of active,
invited, requested; emails are not lower-cased at row creation
(lower-casing happens only inside the matrix transform). -/
theorem claim9_amended (t : HttpTransport) (eps : List (String × String)) (club : Json)
    (ia : Bool) (rows : List MRow) (assets : List AssetRow) (s : Option AreaSummary)
    (h : process_hunt_area t eps club ia = some (rows, assets, s)) :
    ∀ r ∈ rows, pyStrip r.email = r.email
      ∧ (r.status = "active" ∨ r.status = "invited" ∨ r.status = "requested") := by
  unfold process_hunt_area at h
  cases club <;> dsimp only at h <;> try exact Option.noConfusion h
  case obj kvs =>
  split at h
  · cases h
    intro r hr
    exact absurd hr (by simp)
  · split at h <;> try exact Option.noConfusion h
    rename_i mrows irows rrows hm hi hr2
    cases h
    intro r hr
    rcases List.mem_append.mp hr with hr1 | hr3
    · rcases List.mem_append.mp hr1 with hrm | hri
      · obtain ⟨x, _, hx⟩ := optMapM_mem _ _ _ hm r hrm
        obtain ⟨he, hs⟩ := memberRow_email_status _ _ _ _ hx
        exact ⟨he, Or.inl hs⟩
      · obtain ⟨x, _, hx⟩ := optMapM_mem _ _ _ hi r hri
        obtain ⟨he, hs⟩ := inviteRow_email_status _ _ _ _ hx
        exact ⟨he, Or.inr (Or.inl hs)⟩
    · obtain ⟨x, _, hx⟩ := optMapM_mem _ _ _ hr2 r hr3
      obtain ⟨he, hs⟩ := requestRow_email_status _ _ _ _ hx
      exact ⟨he, Or.inr (Or.inr hs)⟩

/-- Claim C9 amended witness: the concrete row of the upper-case email
scenario is trimmed and carries one of the three statuses. -/
theorem claim9_amended_witness :
    pyStrip c9row.email = c9row.email
    ∧ (c9row.status = "active" ∨ c9row.status = "invited" ∨ c9row.status = "requested") :=
  claim9_amended c9transport [] c9club false [c9row] [] (some c9summary) rfl c9row
    (List.mem_singleton.mpr rfl)

/-- Claim C5: with a transport whose invites endpoint raises while the
members and requests endpoints succeed, process_hunt_area still emits
one row per member record followed by one row per request record, and
the total row count is exactly the member count plus the request
count; the failing invites fetch degrades to no rows. -/
theorem claim5 (t : HttpTransport) (eps : List (String × String)) (hidI : Int)
    (hname : String) (mbody rbody : Json) (mrows rrows : List MRow)
    (hmem : t (fmt MEMBERS_URL (.num hidI)) = .ok ⟨200, mbody⟩)
    (hinv : t (fmt INVITE_URL (.num hidI)) = .error ())
    (hreq : t (fmt REQS_URL (.num hidI)) = .ok ⟨200, rbody⟩)
    (hm : optMapM (memberRow (.num hidI) (.str hname)) (json_or_list_to_objects mbody)
      = some mrows)
    (hr : optMapM (requestRow (.num hidI) (.str hname)) (json_or_list_to_objects rbody)
      = some rrows)
    (hn : hname ≠ "") :
    (process_hunt_area t eps (.obj [("huntarea_id", .num hidI),
        ("huntarea", .obj [("id", .num hidI), ("name", .str hname)])]) false).map
        (fun x => (x.1, x.2.1))
      = some (mrows ++ rrows, [])
    ∧ (mrows ++ rrows).length
        = (json_or_list_to_objects mbody).length + (json_or_list_to_objects rbody).length := by
  have hhid : resolveHid [("huntarea_id", .num hidI),
      ("huntarea", .obj [("id", .num hidI), ("name", .str hname)])] = .num hidI := by
    show pyOr (Json.num hidI) (pyOr Json.null (Json.num hidI)) = Json.num hidI
    cases htr : pyTruthy (Json.num hidI) <;> simp [pyOr, htr, pyTruthy]
  have hhname : resolveHuntName [("huntarea_id", .num hidI),
      ("huntarea", .obj [("id", .num hidI), ("name", .str hname)])] = .str hname := by
    show pyOr (Json.str hname) (pyOr Json.null _) = Json.str hname
    have : pyTruthy (Json.str hname) = true := by
      simp [pyTruthy, hn]
    simp [pyOr, this]
  have hmembers : fetch_members_for_area t (Json.num hidI) =
      (some mbody, [fmt MEMBERS_URL (.num hidI)]) := by
    unfold fetch_members_for_area get_json
    dsimp only
    rw [hmem]
    simp [is_safe_id]
  have hinvites : fetch_invites_for_area t (Json.num hidI) =
      ([], [fmt INVITE_URL (.num hidI)]) := by
    unfold fetch_invites_for_area get_json
    dsimp only
    rw [hinv]
    simp [is_safe_id]
  have hreqs : fetch_requests_for_area t (Json.num hidI) =
      (json_or_list_to_objects rbody, [fmt REQS_URL (.num hidI)]) := by
    unfold fetch_requests_for_area get_json
    dsimp only
    rw [hreq]
    simp [is_safe_id]
  constructor
  · unfold process_hunt_area
    dsimp only
    rw [hhid, hhname]
    dsimp only
    rw [hmembers, hinvites, hreqs]
    dsimp only [optMapM]
    rw [hm, hr]
    simp
  · have l1 := optMapM_length _ _ _ hm
    have l2 := optMapM_length _ _ _ hr
    simp [List.length_append, l1, l2]

/-- Claim C5 witness: the concrete invites-raise scenario for area 7
yields exactly the two member rows and the one request row. -/
theorem claim5_witness :
    (process_hunt_area c5transport [] c5club false).map (fun x => (x.1, x.2.1))
      = some (c5mrows ++ c5rrows, [])
    ∧ (c5mrows ++ c5rrows).length
        = (json_or_list_to_objects c5mbody).length + (json_or_list_to_objects c5rbody).length := by
  have h := claim5 c5transport [] 7 "Alpha" c5mbody c5rbody c5mrows c5rrows
    rfl rfl rfl rfl rfl (by decide)
  exact h

/-- Setting a cookie whose (name, domain, path) key is absent from the
jar appends it. -/
theorem jarSetCookie_fresh (jar : List PyCookie) (c : PyCookie)
    (h : ∀ c2 ∈ jar, cookieKey c2 ≠ cookieKey c) :
    jarSetCookie jar c = jar ++ [c] := by
  unfold jarSetCookie
  have hany : jar.any
      (fun c2 => c2.name == c.name && c2.domain == c.domain && c2.path == c.path) = false := by
    rw [List.any_eq_false]
    intro c2 hc2
    have hne := h c2 hc2
    intro hx
    apply hne
    simp only [Bool.and_eq_true, beq_iff_eq] at hx
    simp [cookieKey, hx.1.1, hx.1.2, hx.2]
  rw [hany]
  simp

/-- Folding cookie sets over a jar disjoint from the new cookies, whose
keys are themselves distinct, appends them all. -/
theorem foldl_jarSetCookie (cs : List PyCookie) (acc : List PyCookie)
    (hdisj : ∀ c ∈ cs, ∀ c2 ∈ acc, cookieKey c2 ≠ cookieKey c)
    (hnd : (cs.map cookieKey).Nodup) :
    cs.foldl jarSetCookie acc = acc ++ cs := by
  induction cs generalizing acc with
  | nil => simp
  | cons c t ih =>
    rw [List.foldl_cons,
      jarSetCookie_fresh acc c (fun c2 h2 => hdisj c (List.mem_cons_self c t) c2 h2)]
    rw [List.map_cons, List.nodup_cons] at hnd
    rw [ih (acc ++ [c]) ?_ hnd.2]
    · simp
    · intro c3 hc3 c2 hc2
      rcases List.mem_append.mp hc2 with hin | hone
      · exact hdisj c3 (List.mem_cons_of_mem c hc3) c2 hin
      · have : c2 = c := by simpa using hone
        subst this
        intro hkey
        exact hnd.1 (hkey ▸ List.mem_map_of_mem cookieKey hc3)

/-- Claim C10: the session clone keeps the parent's TLS-verification
setting, every parent header value, and (when the parent jar's cookie
keys are distinct, as in a requests jar) exactly the parent's cookies
with their name, value, domain and path; in particular a clone taken
after fallback_disable_verify has verification disabled. -/
theorem claim10 (parent : PySession)
    (hnd : (parent.cookies.map cookieKey).Nodup) :
    (clone_session parent).verify = parent.verify
    ∧ (∀ k v, parent.headers k = some v → (clone_session parent).headers k = some v)
    ∧ (clone_session parent).cookies = parent.cookies
    ∧ (clone_session (fallback_disable_verify parent)).verify = .flag false := by
  refine ⟨rfl, ?_, ?_, rfl⟩
  · intro k v hv
    show headersUpdate defaultHeaders parent.headers k = some v
    unfold headersUpdate
    rw [hv]
  · show parent.cookies.foldl jarSetCookie [] = parent.cookies
    rw [foldl_jarSetCookie parent.cookies []
      (fun c hc c2 h2 => absurd h2 (by simp)) hnd]
    simp

/-- Claim C10 witness: the concrete parent session with a custom header,
two cookies and a CA bundle. -/
theorem claim10_witness :
    (clone_session c10parent).verify = c10parent.verify
    ∧ (clone_session c10parent).headers "X-Custom" = some "v"
    ∧ (clone_session c10parent).cookies = c10parent.cookies
    ∧ (clone_session (fallback_disable_verify c10parent)).verify = .flag false := by
  have h := claim10 c10parent (by decide)
  exact ⟨h.1, h.2.1 "X-Custom" "v" rfl, h.2.2.1, h.2.2.2⟩
